import Mathlib

/-!
# Verification of the MySQL auth-state store (`src/Mysql/index.ts`)

A shallow embedding of the module semantics:

* `JVal` — structured JSON-like values, with `buf` for raw byte sequences
  (JS `Buffer`s) that only live in in-memory values, never in stored JSON
  documents.
* the codec (`BufferJSON.replacer` / `BufferJSON.reviver`, imported by the
  source from `../Utils` and therefore modelled from the spec) as
  `serializeV` / `reviveV`;
* the retrying query executor `query` over an attempt-failure oracle;
* the key-value operations `readData`, `writeData`, `removeData`,
  `clearAll`, `removeAll` over a database modelled as an association list
  from `id` to the stored JSON document (`none` = SQL `NULL`);
* the facade operations `keysGet`, `keysSet`, `openCreds`, `saveCredsOp`.

JSON text is modelled abstractly by its parse tree: `JSON.stringify v`
followed by `JSON.parse` is the identity on documents, so a cell read back
in "text" driver mode carries the same `JVal` as one read back already
parsed; the two driver modes are the `mode` parameter of `readData`.
-/

/-- Structured JSON-like values. `buf` is a raw byte sequence (a JS
`Buffer`): it occurs in in-memory values handed to `writeData` and produced
by the reviver of the codec, never inside a stored JSON document. -/
inductive JVal where
  | null : JVal
  | bool : Bool → JVal
  | num : Int → JVal
  | str : String → JVal
  | arr : List JVal → JVal
  | obj : List (String × JVal) → JVal
  | buf : List Nat → JVal

namespace JVal

/-- JS truthiness of a value: `null`, `false`, `0` and `""` are falsy;
arrays, objects and Buffers are truthy. -/
def jsTruthy : JVal → Bool
  | .null => false
  | .bool b => b
  | .num n => n != 0
  | .str s => s != ""
  | .arr _ => true
  | .obj _ => true
  | .buf _ => true

/-- JS `typeof v` being `object`: objects, arrays, Buffers — and `null`. -/
def typeofObject : JVal → Bool
  | .null => true
  | .obj _ => true
  | .arr _ => true
  | .buf _ => true
  | _ => false

/-- A JS object in the sense of the TypeScript `object` type (the type of
the `value` parameter of `writeData`): object literals, arrays and Buffers. -/
def isObjectVal : JVal → Bool
  | .obj _ => true
  | .arr _ => true
  | .buf _ => true
  | _ => false

end JVal

/-- Modelled from the spec: the byte encoding the codec uses inside the marker
object. The codec itself (`BufferJSON` from `../Utils`) is not under `src/`;
§4.1 only requires a "marker object containing the encoded bytes", so bytes
are encoded as a JSON array of numbers. -/
def encodeBytes (bs : List Nat) : List JVal :=
  bs.map (fun b => JVal.num (Int.ofNat b))

/-- Inverse of `encodeBytes` on number lists. -/
def decodeBytes (ds : List JVal) : List Nat :=
  ds.map (fun d => match d with | JVal.num n => n.toNat | _ => 0)

/-- The field list of a marker object `\x7b type: "Buffer", data: [...] \x7d`,
returning the decoded bytes when it matches. -/
def isMarker (fs : List (String × JVal)) : Option (List Nat) :=
  match fs with
  | [(k1, JVal.str t), (k2, JVal.arr ds)] =>
    if k1 = "type" ∧ t = "Buffer" ∧ k2 = "data" then some (decodeBytes ds) else none
  | _ => none

/-- The shape that `isMarker` keys on, independent of the data payload:
a two-field object `type: "Buffer"`, `data: <array>`. -/
def isMarkerShape (fs : List (String × JVal)) : Bool :=
  (isMarker fs).isSome

mutual

/-- Modelled from the spec: `JSON.stringify(value, BufferJSON.replacer)`
at the level of parse trees (the serializer from `../Utils` is not under
`src/`). Per §4.1 it tags each raw byte sequence with a recognizable marker
object containing the encoded bytes and passes everything else through
structurally. -/
def serializeV : JVal → JVal
  | .null => .null
  | .bool b => .bool b
  | .num n => .num n
  | .str s => .str s
  | .arr xs => .arr (serializeList xs)
  | .obj fs => .obj (serializeFields fs)
  | .buf bs => .obj [("type", JVal.str "Buffer"), ("data", JVal.arr (encodeBytes bs))]

/-- Pointwise `serializeV` on array elements. -/
def serializeList : List JVal → List JVal
  | [] => []
  | x :: xs => serializeV x :: serializeList xs

/-- Pointwise `serializeV` on object field values. -/
def serializeFields : List (String × JVal) → List (String × JVal)
  | [] => []
  | (k, v) :: fs => (k, serializeV v) :: serializeFields fs

end

mutual

/-- Modelled from the spec: `JSON.parse(text, BufferJSON.reviver)` applied
to the parse tree of `text` (the reviver from `../Utils` is not under
`src/`). Per §4.1 it detects the marker object and reconstructs the original
byte sequence type; values without markers pass through as plain structured
data. -/
def reviveV : JVal → JVal
  | .null => .null
  | .bool b => .bool b
  | .num n => .num n
  | .str s => .str s
  | .arr xs => .arr (reviveList xs)
  | .obj fs =>
    match isMarker fs with
    | some bs => .buf bs
    | none => .obj (reviveFields fs)
  | .buf bs => .buf bs

/-- Pointwise `reviveV` on array elements. -/
def reviveList : List JVal → List JVal
  | [] => []
  | x :: xs => reviveV x :: reviveList xs

/-- Pointwise `reviveV` on object field values. -/
def reviveFields : List (String × JVal) → List (String × JVal)
  | [] => []
  | (k, v) :: fs => (k, reviveV v) :: reviveFields fs

end

mutual

/-- A value is marker-free when no object inside it has the marker shape
the reviver keys on: such a plain object would be rehydrated as a byte
sequence, so the domain of the codec excludes it. -/
def markerFree : JVal → Bool
  | .null => true
  | .bool _ => true
  | .num _ => true
  | .str _ => true
  | .arr xs => markerFreeList xs
  | .obj fs => !isMarkerShape fs && markerFreeFields fs
  | .buf _ => true

/-- Conjunction of `markerFree` over array elements. -/
def markerFreeList : List JVal → Bool
  | [] => true
  | x :: xs => markerFree x && markerFreeList xs

/-- Conjunction of `markerFree` over object field values. -/
def markerFreeFields : List (String × JVal) → Bool
  | [] => true
  | (_, v) :: fs => markerFree v && markerFreeFields fs

end

/-! ## Configuration and connection manager (`connection`, lines 5–41) -/

/-- The recognized configuration options of `MySQLConfig` that the module
reads (`src/Mysql/index.ts` lines 12–27, 52–54). `none` models an absent
property; JS `||` defaulting also replaces falsy present values (empty
string, `0`). -/
structure MySQLConfig where
  database : Option String := none
  host : Option String := none
  port : Option Nat := none
  user : Option String := none
  tableName : Option String := none
  retryRequestDelayMs : Option Nat := none
  maxtRetries : Option Nat := none

/-- JS `opt || dflt` for a string-valued option: absent or empty falls back. -/
def orDefaultStr (o : Option String) (dflt : String) : String :=
  match o with
  | some s => if s = "" then dflt else s
  | none => dflt

/-- JS `opt || dflt` for a number-valued option: absent or `0` falls back. -/
def orDefaultNat (o : Option Nat) (dflt : Nat) : Nat :=
  match o with
  | some n => if n = 0 then dflt else n
  | none => dflt

/-- The table name: `config.tableName` with default `auth` (line 52). -/
def tableNameOf (c : MySQLConfig) : String := orDefaultStr c.tableName "auth"

/-- The retry delay: `config.retryRequestDelayMs` with default 200 (line 53). -/
def retryDelayOf (c : MySQLConfig) : Nat := orDefaultNat c.retryRequestDelayMs 200

/-- The attempt bound: `config.maxtRetries` with default 10 (line 54). -/
def maxtRetriesOf (c : MySQLConfig) : Nat := orDefaultNat c.maxtRetries 10

/-- The connection target `createConnection` is pointed at (lines 13–16),
with the defaults of the source applied. -/
structure ConnTarget where
  database : String
  host : String
  port : Nat
  user : String
  deriving DecidableEq, Repr

/-- The target built from a config by `connection` (lines 13–16). -/
def targetOf (c : MySQLConfig) : ConnTarget :=
  { database := orDefaultStr c.database "base"
    host := orDefaultStr c.host "localhost"
    port := orDefaultNat c.port 3306
    user := orDefaultStr c.user "root" }

/-- A connection handle: the target it was created against, and the
`connection._closing` flag the source reads on line 8. -/
structure Handle where
  target : ConnTarget
  closing : Bool
  deriving DecidableEq, Repr

/-- One step of the connection manager (`connection`, lines 7–41) on the
module-level `conn` state (`none` = `conn === undefined`). Returns the
handle afterwards, whether a new handle was created (the branch on line 11
taken), and whether the `CREATE TABLE IF NOT EXISTS` statement was issued
(line 30: only when `newConnection`). -/
def connection (st : Option Handle) (config : MySQLConfig) (force : Bool) :
    Handle × Bool × Bool :=
  let ended := match st with
    | some h => h.closing
    | none => false
  let newConnection := st.isNone
  if newConnection || ended || force then
    ({ target := targetOf config, closing := false }, true, newConnection)
  else
    (match st with
     | some h => h
     | none => { target := targetOf config, closing := false }, false, false)

/-! ## Database rows, statement semantics and the retrying executor -/

/-- The rows of the backing table: an association list from `id` to the
stored JSON document of the `value` column (`none` = SQL `NULL`). -/
abbrev DB := List (String × Option JVal)

/-- Semantics of `SELECT value FROM t WHERE id = ?`: the value cell of the row for `id`,
or `none` when no row exists. -/
def lookupDB (db : DB) (id : String) : Option (Option JVal) :=
  (List.find? (fun p => p.1 = id) db).map (fun p => p.2)

/-- Semantics of `INSERT ... ON DUPLICATE KEY UPDATE value = ?`: update every row whose
key matches, or append a fresh row when none does. -/
def upsertDB (db : DB) (id : String) (v : Option JVal) : DB :=
  if (List.find? (fun p => p.1 = id) db).isSome then
    db.map (fun p => if p.1 = id then (p.1, v) else p)
  else
    db ++ [(id, v)]

/-- Semantics of `DELETE FROM t WHERE id = ?`. -/
def deleteDB (db : DB) (id : String) : DB :=
  db.filter (fun p => ¬ p.1 = id)

/-- Semantics of the delete keeping only the creds row (`clearAll`, line 88). -/
def deleteExceptCredsDB (db : DB) : DB :=
  db.filter (fun p => p.1 = "creds")

/-- The parameterized statements the module issues through `query`. -/
inductive Stmt where
  | selectValue (id : String)
  | upsertValue (id : String) (v : JVal)
  | deleteRow (id : String)
  | deleteExceptCreds
  | deleteAll
  | dropTable

/-- The effect of one successfully executed statement: the rows the driver
returns (for `SELECT value`, one cell per matching row) and the table
afterwards. -/
def execStmt (stmt : Stmt) (db : DB) : List (Option JVal) × DB :=
  match stmt with
  | .selectValue id =>
    (match lookupDB db id with
     | some cell => [cell]
     | none => [], db)
  | .upsertValue id v => ([], upsertDB db id (some v))
  | .deleteRow id => ([], deleteDB db id)
  | .deleteExceptCreds => ([], deleteExceptCredsDB db)
  | .deleteAll => ([], [])
  | .dropTable => ([], [])

/-- Outcome of a `query` call: the rows returned to the caller, the table
afterwards, the waits performed (one entry per failed attempt, in order),
and how many attempts hit the driver. -/
structure QueryOut where
  rows : List (Option JVal)
  db : DB
  delays : List Nat
  attempts : Nat

/-- The body of the retry loop of `query` (lines 57–64): attempt `x`; on failure
(`fail x = true`, the `catch` branch) wait `delayMs` and continue with the
next attempt; on success return the rows of that attempt. After the loop, return
`[]` (line 65). `fail` is the oracle saying which attempt indices throw. -/
def queryGo (fail : Nat → Bool) (delayMs : Nat) (stmt : Stmt) (db : DB) :
    Nat → Nat → QueryOut
  | _, 0 => ⟨[], db, [], 0⟩
  | x, r + 1 =>
    if fail x then
      let out := queryGo fail delayMs stmt db (x + 1) r
      ⟨out.rows, out.db, delayMs :: out.delays, out.attempts + 1⟩
    else
      let res := execStmt stmt db
      ⟨res.1, res.2, [], 1⟩

/-- The retrying query executor `query` (lines 56–66): up to
`maxtRetries` attempts, a fixed `retryRequestDelayMs` wait after each
failure, `[]` when every attempt fails. -/
def query (fail : Nat → Bool) (config : MySQLConfig) (stmt : Stmt) (db : DB) : QueryOut :=
  queryGo fail (retryDelayOf config) stmt db 0 (maxtRetriesOf config)

/-- The oracle under which every attempt succeeds (a healthy store). -/
def noFail : Nat → Bool := fun _ => false

/-- The oracle under which every attempt throws (an unreachable store). -/
def allFail : Nat → Bool := fun _ => true

/-! ## Key-value store (lines 68–93)

Each operation is parameterized by the attempt-failure oracle `fail` and the
config; multi-statement operations apply the same oracle to each inner
`query` call (the theorems below instantiate it with the constant oracles
`noFail` / `allFail`, under which this is exact). -/

/-- The reader `readData` (lines 68–73). `mode = true` models a driver that returns the
`value` column as already-parsed structured data, `mode = false` one that
returns raw JSON text; with text abstracted by its parse tree, a non-empty
text cell is always truthy and `JSON.parse(raw, BufferJSON.reviver)` is
`reviveV`. In parsed mode the source first rejects a falsy value
(a falsy first cell), then re-serializes data of object type
(`JSON.stringify`) before the one parse; a truthy non-object cell is a bare
number or boolean, which survives `JSON.parse(String(it))`, while a bare
string document would reach `JSON.parse` with non-JSON text and throw. -/
def readData (fail : Nat → Bool) (config : MySQLConfig) (mode : Bool)
    (db : DB) (id : String) : Except String JVal × DB :=
  let out := query fail config (.selectValue id) db
  match out.rows.head? with
  | none => (.ok .null, out.db)
  | some none => (.ok .null, out.db)
  | some (some t) =>
    if mode then
      if t.jsTruthy then
        if t.typeofObject then (.ok (reviveV t), out.db)
        else
          match t with
          | .num n => (.ok (.num n), out.db)
          | .bool b => (.ok (.bool b), out.db)
          | _ => (.error "SyntaxError: Unexpected token in JSON", out.db)
      else (.ok .null, out.db)
    else (.ok (reviveV t), out.db)

/-- The writer `writeData` (lines 75–81): serialize through the codec, then upsert. -/
def writeData (fail : Nat → Bool) (config : MySQLConfig)
    (db : DB) (id : String) (value : JVal) : DB :=
  (query fail config (.upsertValue id (serializeV value)) db).db

/-- The deleter `removeData` (lines 83–85). -/
def removeData (fail : Nat → Bool) (config : MySQLConfig)
    (db : DB) (id : String) : DB :=
  (query fail config (.deleteRow id) db).db

/-- The bulk delete `clearAll` (lines 87–89), the body of the facade operation `clear()`. -/
def clearAll (fail : Nat → Bool) (config : MySQLConfig) (db : DB) : DB :=
  (query fail config .deleteExceptCreds db).db

/-- The bulk delete `removeAll` (lines 91–93), the body of the facade operation `removeCreds()`. -/
def removeAll (fail : Nat → Bool) (config : MySQLConfig) (db : DB) : DB :=
  (query fail config .deleteAll db).db

/-- The facade operation `dropTable()` (lines 136–138). -/
def dropTableOp (fail : Nat → Bool) (config : MySQLConfig) (db : DB) : DB :=
  (query fail config .dropTable db).db

/-! ## Auth-state facade (lines 95–140) -/

/-- Modelled from the spec: `initAuthCreds` (imported from `../Utils`, not
under `src/`) generates a fresh default credential bundle; §3 and §4.5 only
require a non-null default value, here a representative bundle with a raw
key and a flag. -/
def initAuthCreds : JVal :=
  JVal.obj [("noiseKey", JVal.buf [0]), ("registered", JVal.bool false)]

/-- Line 95, reading the creds record with `initAuthCreds()` as the fallback —
the in-memory credential bundle computed when the store is opened. A decode
error in `readData` propagates out of `useMySQLAuthState`. -/
def openCreds (fail : Nat → Bool) (config : MySQLConfig) (mode : Bool)
    (db : DB) : Except String JVal × DB :=
  match readData fail config mode db "creds" with
  | (.error e, db1) => (.error e, db1)
  | (.ok v, db1) => (.ok (if v.jsTruthy then v else initAuthCreds), db1)

/-- The facade operation `saveCreds` (lines 127–129): persist the in-memory bundle under
`"creds"`. -/
def saveCredsOp (fail : Nat → Bool) (config : MySQLConfig)
    (creds : JVal) (db : DB) : DB :=
  writeData fail config db "creds" creds

/-- The facade operation `state.keys.get` (lines 101–111): read the record
keyed by the category and the id, joined with a dash, for each id in order, apply `fromObject` (external, passed in as `fromObj`) to truthy
values of the `app-state-sync-key` category, and collect the mapping. -/
def keysGet (fromObj : JVal → JVal) (fail : Nat → Bool) (config : MySQLConfig)
    (mode : Bool) (ty : String) (ids : List String) (db : DB) :
    Except String (List (String × JVal)) × DB :=
  match ids with
  | [] => (.ok [], db)
  | id :: rest =>
    match readData fail config mode db (ty ++ "-" ++ id) with
    | (.error e, db1) => (.error e, db1)
    | (.ok value, db1) =>
      let value := if ty == "app-state-sync-key" && value.jsTruthy then fromObj value else value
      match keysGet fromObj fail config mode ty rest db1 with
      | (.error e, db2) => (.error e, db2)
      | (.ok restMap, db2) => (.ok ((id, value) :: restMap), db2)

/-- One category of `state.keys.set` (inner loop, lines 114–122): write a
truthy value under the dash-joined category and id key, remove the record
otherwise. -/
def keysSetEntries (fail : Nat → Bool) (config : MySQLConfig)
    (category : String) (entries : List (String × JVal)) (db : DB) : DB :=
  match entries with
  | [] => db
  | (id, value) :: rest =>
    let key := category ++ "-" ++ id
    let db1 := if value.jsTruthy then writeData fail config db key value
               else removeData fail config db key
    keysSetEntries fail config category rest db1

/-- The facade operation `state.keys.set` (lines 112–124): iterate categories, then ids. -/
def keysSet (fail : Nat → Bool) (config : MySQLConfig)
    (data : List (String × List (String × JVal))) (db : DB) : DB :=
  match data with
  | [] => db
  | (category, m) :: rest =>
    keysSet fail config rest (keysSetEntries fail config category m db)

/-- The keys column of the table. -/
def dbKeys (db : DB) : List String := db.map Prod.fst

/-- The decode step of `readData` after the `SELECT`, as a function of the
looked-up cell (`none` = no row): the branch structure of lines 70-72. -/
def readCell (mode : Bool) : Option (Option JVal) → Except String JVal
  | none => .ok .null
  | some none => .ok .null
  | some (some t) =>
    if mode then
      if t.jsTruthy then
        if t.typeofObject then .ok (reviveV t)
        else
          match t with
          | .num n => .ok (.num n)
          | .bool b => .ok (.bool b)
          | _ => .error "SyntaxError: Unexpected token in JSON"
      else .ok .null
    else .ok (reviveV t)

/-! ## Codec lemmas -/

theorem decodeBytes_encodeBytes (bs : List Nat) : decodeBytes (encodeBytes bs) = bs := by
  induction bs with
  | nil => rfl
  | cons b bs ih => simp [encodeBytes, decodeBytes] at ih ⊢; exact ih

theorem isMarkerShape_serializeFields (fs : List (String × JVal)) :
    isMarkerShape (serializeFields fs) = isMarkerShape fs := by
  match fs with
  | [] => rfl
  | [(k, v)] => cases v <;> rfl
  | [(k1, v1), (k2, v2)] =>
    cases v1 <;> cases v2 <;>
      simp [serializeFields, serializeV, isMarker, isMarkerShape, apply_ite]
  | (k1, v1) :: (k2, v2) :: f3 :: fs =>
    cases v1 <;> cases v2 <;> rfl

theorem isMarker_eq_none_of_shape_false (fs : List (String × JVal))
    (h : isMarkerShape fs = false) : isMarker fs = none := by
  unfold isMarkerShape at h
  exact Option.not_isSome_iff_eq_none.mp (by simp [h])

theorem isMarker_serializeFields_eq_none (fs : List (String × JVal))
    (h : isMarkerShape fs = false) : isMarker (serializeFields fs) = none :=
  isMarker_eq_none_of_shape_false _ ((isMarkerShape_serializeFields fs).trans h)

mutual

theorem reviveV_serializeV (v : JVal) (h : markerFree v = true) :
    reviveV (serializeV v) = v := by
  match v with
  | .null => rfl
  | .bool b => rfl
  | .num n => rfl
  | .str s => rfl
  | .arr xs =>
    simp only [markerFree] at h
    simp only [serializeV, reviveV, reviveList_serializeList xs h]
  | .obj fs =>
    simp only [markerFree, Bool.and_eq_true, Bool.not_eq_true'] at h
    simp only [serializeV, reviveV, isMarker_serializeFields_eq_none fs h.1,
      reviveFields_serializeFields fs h.2]
  | .buf bs =>
    simp [serializeV, reviveV, isMarker, decodeBytes_encodeBytes]

theorem reviveList_serializeList (xs : List JVal) (h : markerFreeList xs = true) :
    reviveList (serializeList xs) = xs := by
  match xs with
  | [] => rfl
  | x :: xs =>
    simp only [markerFreeList, Bool.and_eq_true] at h
    simp only [serializeList, reviveList, reviveV_serializeV x h.1,
      reviveList_serializeList xs h.2]

theorem reviveFields_serializeFields (fs : List (String × JVal))
    (h : markerFreeFields fs = true) : reviveFields (serializeFields fs) = fs := by
  match fs with
  | [] => rfl
  | (k, v) :: fs =>
    simp only [markerFreeFields, Bool.and_eq_true] at h
    simp only [serializeFields, reviveFields, reviveV_serializeV v h.1,
      reviveFields_serializeFields fs h.2]

end

/-! ## Executor lemmas -/

theorem maxtRetriesOf_pos (config : MySQLConfig) : 0 < maxtRetriesOf config := by
  unfold maxtRetriesOf orDefaultNat
  match config.maxtRetries with
  | none => exact Nat.succ_pos 9
  | some n =>
    by_cases h : n = 0
    · simp [h]
    · simp [h]; omega

theorem query_noFail (config : MySQLConfig) (stmt : Stmt) (db : DB) :
    query noFail config stmt db =
      ⟨(execStmt stmt db).1, (execStmt stmt db).2, [], 1⟩ := by
  unfold query
  have h := maxtRetriesOf_pos config
  match hr : maxtRetriesOf config with
  | 0 => omega
  | r + 1 => simp [queryGo, noFail]

theorem queryGo_allFail (d : Nat) (stmt : Stmt) (db : DB) (r x : Nat) :
    queryGo allFail d stmt db x r = ⟨[], db, List.replicate r d, r⟩ := by
  induction r generalizing x with
  | zero => rfl
  | succ r ih => simp [queryGo, allFail, ih, List.replicate_succ]

theorem query_allFail (config : MySQLConfig) (stmt : Stmt) (db : DB) :
    query allFail config stmt db =
      ⟨[], db, List.replicate (maxtRetriesOf config) (retryDelayOf config),
        maxtRetriesOf config⟩ :=
  queryGo_allFail _ _ _ _ _

/-! ## Association-list lemmas for the statement semantics -/

theorem lookupDB_upsertDB_self (db : DB) (id : String) (v : Option JVal) :
    lookupDB (upsertDB db id v) id = some v := by
  unfold upsertDB
  by_cases h : (List.find? (fun p => p.1 = id) db).isSome
  · simp only [if_pos h]
    induction db with
    | nil => simp at h
    | cons p rest ih =>
      by_cases hp : p.1 = id
      · simp [lookupDB, List.find?_cons_of_pos, hp]
      · rw [List.find?_cons_of_neg _ (by simpa using hp)] at h
        simpa [lookupDB, List.find?_cons_of_neg, hp] using ih h
  · simp only [if_neg h]
    rw [Option.not_isSome_iff_eq_none] at h
    simp [lookupDB, List.find?_append, h]

theorem dbKeys_upsertDB_nodup (db : DB) (id : String) (v : Option JVal)
    (h : (dbKeys db).Nodup) : (dbKeys (upsertDB db id v)).Nodup := by
  unfold upsertDB
  by_cases hf : (List.find? (fun p => p.1 = id) db).isSome
  · simp only [if_pos hf]
    have hkeys : dbKeys (db.map (fun p => if p.1 = id then (p.1, v) else p)) = dbKeys db := by
      unfold dbKeys
      rw [List.map_map]
      congr 1
      funext p
      by_cases hp : p.1 = id <;> simp [hp]
    rw [hkeys]; exact h
  · simp only [if_neg hf]
    rw [Option.not_isSome_iff_eq_none] at hf
    have hnotin : id ∉ dbKeys db := by
      intro hmem
      obtain ⟨p, hp, hfst⟩ := List.mem_map.mp hmem
      have := List.find?_eq_none.mp hf p hp
      simp [hfst] at this
    unfold dbKeys at *
    rw [List.map_append]
    simp [List.nodup_append, h, hnotin]

theorem lookupDB_deleteDB_self (db : DB) (id : String) :
    lookupDB (deleteDB db id) id = none := by
  unfold lookupDB deleteDB
  have hnone : List.find? (fun p => p.1 = id) (db.filter (fun p => ¬ p.1 = id)) = none := by
    rw [List.find?_eq_none]
    intro p hp
    have := (List.mem_filter.mp hp).2
    simpa using this
  simp [hnone]

theorem lookupDB_deleteExceptCreds_creds (db : DB) :
    lookupDB (deleteExceptCredsDB db) "creds" = lookupDB db "creds" := by
  unfold lookupDB deleteExceptCredsDB
  congr 1
  induction db with
  | nil => rfl
  | cons p rest ih =>
    by_cases hp : p.1 = "creds"
    · rw [List.filter_cons_of_pos (by simpa using hp),
        List.find?_cons_of_pos _ (by simpa using hp),
        List.find?_cons_of_pos _ (by simpa using hp)]
    · rw [List.filter_cons_of_neg (by simpa using hp),
        List.find?_cons_of_neg _ (by simpa using hp), ih]

theorem lookupDB_deleteExceptCreds_other (db : DB) (id : String)
    (h : ¬ id = "creds") : lookupDB (deleteExceptCredsDB db) id = none := by
  unfold lookupDB deleteExceptCredsDB
  have hnone : List.find? (fun p => p.1 = id) (db.filter (fun p => p.1 = "creds")) = none := by
    rw [List.find?_eq_none]
    intro p hp
    have hcreds := (List.mem_filter.mp hp).2
    simp only [decide_eq_true_eq] at hcreds
    simp only [decide_eq_true_eq]
    intro he
    exact h (by rw [← he, hcreds])
  simp [hnone]

/-! ## Characterizing the operations under the healthy oracle -/

theorem readData_noFail (config : MySQLConfig) (mode : Bool) (db : DB) (id : String) :
    readData noFail config mode db id = (readCell mode (lookupDB db id), db) := by
  unfold readData
  rw [query_noFail]
  unfold execStmt
  cases hcell : lookupDB db id with
  | none => simp [hcell, readCell]
  | some cell =>
    cases cell with
    | none => simp [hcell, readCell]
    | some t =>
      simp only [hcell, readCell, List.head?]
      by_cases hm : mode = true
      · by_cases ht : t.jsTruthy = true
        · by_cases hto : t.typeofObject = true
          · simp [hm, ht, hto]
          · simp only [hm, ht, hto, if_true, if_false]
            cases t <;> rfl
        · simp [hm, ht]
      · simp [hm]

theorem writeData_noFail (config : MySQLConfig) (db : DB) (id : String) (v : JVal) :
    writeData noFail config db id v = upsertDB db id (some (serializeV v)) := by
  unfold writeData
  rw [query_noFail]
  rfl

theorem removeData_noFail (config : MySQLConfig) (db : DB) (id : String) :
    removeData noFail config db id = deleteDB db id := by
  unfold removeData
  rw [query_noFail]
  rfl

theorem clearAll_noFail (config : MySQLConfig) (db : DB) :
    clearAll noFail config db = deleteExceptCredsDB db := by
  unfold clearAll
  rw [query_noFail]
  rfl

theorem serializeV_objectVal (v : JVal) (h : v.isObjectVal = true) :
    (serializeV v).jsTruthy = true ∧ (serializeV v).typeofObject = true := by
  cases v <;> simp [JVal.isObjectVal] at h <;>
    simp [serializeV, JVal.jsTruthy, JVal.typeofObject]

theorem readCell_serialized (mode : Bool) (v : JVal)
    (hobj : v.isObjectVal = true) (hmf : markerFree v = true) :
    readCell mode (some (some (serializeV v))) = .ok v := by
  obtain ⟨ht, hto⟩ := serializeV_objectVal v hobj
  cases mode with
  | false => simp [readCell, reviveV_serializeV v hmf]
  | true => simp [readCell, ht, hto, reviveV_serializeV v hmf]

theorem queryGo_attempts_le (fail : Nat → Bool) (d : Nat) (stmt : Stmt) (db : DB)
    (r x : Nat) : (queryGo fail d stmt db x r).attempts ≤ r := by
  induction r generalizing x with
  | zero => simp [queryGo]
  | succ r ih =>
    simp only [queryGo]
    by_cases hf : fail x
    · simpa [hf] using Nat.succ_le_succ (ih (x + 1))
    · simp [hf]

theorem queryGo_delays_fixed (fail : Nat → Bool) (d : Nat) (stmt : Stmt) (db : DB)
    (r x : Nat) : ∀ e ∈ (queryGo fail d stmt db x r).delays, e = d := by
  induction r generalizing x with
  | zero => simp [queryGo]
  | succ r ih =>
    simp only [queryGo]
    by_cases hf : fail x
    · simp only [hf, if_true]
      intro e he
      rcases List.mem_cons.mp he with h | h
      · exact h
      · exact ih (x + 1) e h
    · simp [hf]

theorem queryGo_success (fail : Nat → Bool) (d : Nat) (stmt : Stmt) (db : DB)
    (r x : Nat) (h : ∃ i, i < r ∧ fail (x + i) = false) :
    (queryGo fail d stmt db x r).rows = (execStmt stmt db).1 ∧
    (queryGo fail d stmt db x r).db = (execStmt stmt db).2 := by
  induction r generalizing x with
  | zero =>
    obtain ⟨i, hi, _⟩ := h
    omega
  | succ r ih =>
    simp only [queryGo]
    by_cases hf : fail x
    · simp only [hf, if_true]
      obtain ⟨i, hi, hfi⟩ := h
      match i, hi, hfi with
      | 0, _, hfi => rw [Nat.add_zero] at hfi; rw [hfi] at hf; exact absurd hf (by simp)
      | j + 1, hj, hfj =>
        exact ih (x + 1) ⟨j, by omega, by rw [← hfj]; congr 1; omega⟩
    · simp [hf]

theorem queryGo_allFail_bounded (fail : Nat → Bool) (d : Nat) (stmt : Stmt) (db : DB)
    (r x : Nat) (h : ∀ i, i < r → fail (x + i) = true) :
    queryGo fail d stmt db x r = ⟨[], db, List.replicate r d, r⟩ := by
  induction r generalizing x with
  | zero => rfl
  | succ r ih =>
    have h0 : fail x = true := by simpa using h 0 (Nat.succ_pos r)
    simp only [queryGo, h0, if_true]
    rw [ih (x + 1) (fun i hi => by rw [show x + 1 + i = x + (i + 1) by omega]; exact h (i + 1) (by omega))]
    simp [List.replicate_succ]

theorem keysGet_allFail (fromObj : JVal → JVal) (config : MySQLConfig) (mode : Bool)
    (ty : String) (ids : List String) (db : DB) :
    keysGet fromObj allFail config mode ty ids db =
      (.ok (ids.map (fun i => (i, JVal.null))), db) := by
  induction ids with
  | nil => rfl
  | cons id rest ih =>
    have hread : readData allFail config mode db (ty ++ "-" ++ id) = (.ok .null, db) := by
      unfold readData
      rw [query_allFail]
      rcases hmr : maxtRetriesOf config with _ | r
      · exact absurd hmr (by have := maxtRetriesOf_pos config; omega)
      · rfl
    simp [keysGet, hread, ih, JVal.jsTruthy]

theorem readData_allFail (config : MySQLConfig) (mode : Bool) (db : DB) (id : String) :
    readData allFail config mode db id = (.ok .null, db) := by
  unfold readData
  rw [query_allFail]
  rfl

theorem keysSetEntries_allFail (config : MySQLConfig) (category : String)
    (entries : List (String × JVal)) (db : DB) :
    keysSetEntries allFail config category entries db = db := by
  induction entries generalizing db with
  | nil => rfl
  | cons e rest ih =>
    obtain ⟨id, value⟩ := e
    simp only [keysSetEntries]
    by_cases hv : value.jsTruthy = true
    · simp only [hv, if_true]
      rw [show writeData allFail config db (category ++ "-" ++ id) value = db by
        unfold writeData; rw [query_allFail]]
      exact ih db
    · simp only [hv]
      rw [show removeData allFail config db (category ++ "-" ++ id) = db by
        unfold removeData; rw [query_allFail]]
      simp only [Bool.false_eq_true, if_false]
      exact ih db

theorem keysSet_allFail (config : MySQLConfig)
    (data : List (String × List (String × JVal))) (db : DB) :
    keysSet allFail config data db = db := by
  induction data generalizing db with
  | nil => rfl
  | cons c rest ih =>
    obtain ⟨category, m⟩ := c
    simp only [keysSet]
    rw [keysSetEntries_allFail]
    exact ih db

/-! ## Claim theorems -/

/-- C1: for every statement and parameter list, `query` attempts the
underlying query at most the configured maximum number of times (default 10
when the option is absent), waits the fixed configured delay (default
200ms when absent) after each failed attempt with no back-off; if some
attempt within the budget succeeds it returns the rows of that attempt, and if
every attempt fails it returns an empty result set — not an error — with
the table untouched, so a caller cannot distinguish "no row found" from
"all retries exhausted". -/
theorem query_retry_policy (fail : Nat → Bool) (config : MySQLConfig)
    (stmt : Stmt) (db : DB) :
    (query fail config stmt db).attempts ≤ maxtRetriesOf config ∧
    (∀ e ∈ (query fail config stmt db).delays, e = retryDelayOf config) ∧
    (config.maxtRetries = none → maxtRetriesOf config = 10) ∧
    (config.retryRequestDelayMs = none → retryDelayOf config = 200) ∧
    ((∃ x, x < maxtRetriesOf config ∧ fail x = false) →
      (query fail config stmt db).rows = (execStmt stmt db).1) ∧
    ((∀ x, x < maxtRetriesOf config → fail x = true) →
      query fail config stmt db =
        ⟨[], db, List.replicate (maxtRetriesOf config) (retryDelayOf config),
          maxtRetriesOf config⟩) := by
  unfold query
  refine ⟨queryGo_attempts_le _ _ _ _ _ _, queryGo_delays_fixed _ _ _ _ _ _,
    ?_, ?_, ?_, ?_⟩
  · intro h; simp [maxtRetriesOf, orDefaultNat, h]
  · intro h; simp [retryDelayOf, orDefaultNat, h]
  · rintro ⟨x, hx, hfx⟩
    exact (queryGo_success _ _ _ _ _ _ ⟨x, hx, by simpa using hfx⟩).1
  · intro h
    exact queryGo_allFail_bounded _ _ _ _ _ _ (fun i hi => by simpa using h i hi)

/-- C1 witness: under the default config, an attempt sequence failing three
times and then succeeding returns the looked-up row, and the defaults are
10 attempts and 200ms. -/
theorem query_retry_policy_witness :
    (query (fun x => decide (x < 3)) {} (Stmt.selectValue "a")
        [("a", some (JVal.str "v"))]).rows = [some (JVal.str "v")] ∧
    maxtRetriesOf {} = 10 ∧ retryDelayOf {} = 200 := by
  have h := query_retry_policy (fun x => decide (x < 3)) {} (Stmt.selectValue "a")
      [("a", some (JVal.str "v"))]
  refine ⟨?_, h.2.2.1 rfl, h.2.2.2.1 rfl⟩
  have hs := h.2.2.2.2.1 ⟨3, by rw [h.2.2.1 rfl]; omega, by simp⟩
  rw [hs]
  rfl

/-- C2: writing `v1` then `v2` under the same id and reading back returns
`v2` — the second write replaces the first (upsert) — and the write pair
never introduces a duplicate id: the key column of the table stays `Nodup`.
Stated for values in the domain of the codec: JS objects (the `value: object`
signature) free of literal Buffer-marker-shaped objects. -/
theorem writeData_upsert_replaces (config : MySQLConfig) (mode : Bool) (db : DB)
    (id : String) (v1 v2 : JVal)
    (hobj : v2.isObjectVal = true) (hmf : markerFree v2 = true) :
    (readData noFail config mode
        (writeData noFail config (writeData noFail config db id v1) id v2) id).1
      = .ok v2 ∧
    ((dbKeys db).Nodup →
      (dbKeys (writeData noFail config (writeData noFail config db id v1) id v2)).Nodup) := by
  constructor
  · rw [writeData_noFail, writeData_noFail, readData_noFail]
    simp only [lookupDB_upsertDB_self]
    exact readCell_serialized mode v2 hobj hmf
  · intro hnd
    rw [writeData_noFail, writeData_noFail]
    exact dbKeys_upsertDB_nodup _ _ _ (dbKeys_upsertDB_nodup _ _ _ hnd)

/-- C2 witness: overwriting `"k"` with a second object and reading it back
returns the second object. -/
theorem writeData_upsert_replaces_witness :
    (readData noFail {} false
        (writeData noFail {} (writeData noFail {} [] "k" (JVal.obj []))
          "k" (JVal.obj [("a", JVal.num 1)])) "k").1
      = .ok (JVal.obj [("a", JVal.num 1)]) :=
  (writeData_upsert_replaces {} false [] "k" (JVal.obj [])
    (JVal.obj [("a", JVal.num 1)]) rfl rfl).1

/-- C3: for an id not previously present, `write(id, v)` followed by
`read(id)` returns a value structurally equal to `v`, byte sequences
reconstructed exactly — for `v` in the domain of the codec (a JS object free of
literal marker-shaped objects), in either driver mode. -/
theorem write_read_roundtrip (config : MySQLConfig) (mode : Bool) (db : DB)
    (id : String) (v : JVal) (hfresh : lookupDB db id = none)
    (hobj : v.isObjectVal = true) (hmf : markerFree v = true) :
    (readData noFail config mode (writeData noFail config db id v) id).1 = .ok v := by
  rw [writeData_noFail, readData_noFail]
  simp only [lookupDB_upsertDB_self]
  exact readCell_serialized mode v hobj hmf

/-- C3 witness: a value with a nested raw byte sequence survives the
write/read roundtrip on an empty table. -/
theorem write_read_roundtrip_witness :
    (readData noFail {} true
        (writeData noFail {} [] "session-1"
          (JVal.obj [("key", JVal.buf [7, 0, 255])])) "session-1").1
      = .ok (JVal.obj [("key", JVal.buf [7, 0, 255])]) :=
  write_read_roundtrip {} true [] "session-1"
    (JVal.obj [("key", JVal.buf [7, 0, 255])]) rfl rfl rfl

/-- C4: `keys.set` with a null value removes the record, and a following
`keys.get` for that id returns the mapping sending it to null — for every
category and id, indistinguishable from the record never having existed. -/
theorem keys_set_null_get_null (config : MySQLConfig) (mode : Bool) (db : DB)
    (fromObj : JVal → JVal) (category id : String) :
    (keysGet fromObj noFail config mode category [id]
        (keysSet noFail config [(category, [(id, JVal.null)])] db)).1
      = .ok [(id, JVal.null)] := by
  simp only [keysSet, keysSetEntries, JVal.jsTruthy, Bool.false_eq_true, if_false]
  rw [removeData_noFail]
  simp only [keysGet, readData_noFail, lookupDB_deleteDB_self, readCell]
  simp [JVal.jsTruthy, keysGet]

/-- C5: `read(id)` returns null when no row exists, when the stored value
is SQL `NULL`, or (parsed driver data) when the stored value is empty/falsy;
otherwise it decodes through the codec, and a row the driver returns as
already-parsed structured data is re-serialized to text and parsed again, so
both driver modes decode through the one canonical reviver path `reviveV`. -/
theorem readData_decode_paths (config : MySQLConfig) (db : DB) (id : String) :
    (lookupDB db id = none →
      ∀ mode, (readData noFail config mode db id).1 = .ok .null) ∧
    (lookupDB db id = some none →
      ∀ mode, (readData noFail config mode db id).1 = .ok .null) ∧
    (∀ t, lookupDB db id = some (some t) → t.jsTruthy = false →
      (readData noFail config true db id).1 = .ok .null) ∧
    (∀ t, lookupDB db id = some (some t) → t.jsTruthy = true →
      t.typeofObject = true →
      (readData noFail config true db id).1 = .ok (reviveV t) ∧
      (readData noFail config false db id).1 = .ok (reviveV t)) := by
  refine ⟨?_, ?_, ?_, ?_⟩
  · intro h mode; rw [readData_noFail, h]; rfl
  · intro h mode; rw [readData_noFail, h]; rfl
  · intro t h ht
    rw [readData_noFail, h]
    simp [readCell, ht]
  · intro t h ht hto
    constructor <;> rw [readData_noFail, h] <;> simp [readCell, ht, hto]

/-- C5 witness: on a table holding a serialized object under `"k"`, a NULL
cell under `"n"`, and nothing under `"x"`, both driver modes decode `"k"`
through the reviver and the other reads return null. -/
theorem readData_decode_paths_witness :
    (readData noFail {} true [("k", some (JVal.obj [("a", JVal.num 2)]))] "k").1
      = .ok (JVal.obj [("a", JVal.num 2)]) ∧
    (readData noFail {} false [("k", some (JVal.obj [("a", JVal.num 2)]))] "k").1
      = .ok (JVal.obj [("a", JVal.num 2)]) ∧
    (readData noFail {} true [("n", none)] "n").1 = .ok .null ∧
    (readData noFail {} true [] "x").1 = .ok .null := by
  have hk := (readData_decode_paths {} [("k", some (JVal.obj [("a", JVal.num 2)]))] "k").2.2.2
      (JVal.obj [("a", JVal.num 2)]) rfl rfl rfl
  have hn := (readData_decode_paths {} [("n", none)] "n").2.1 rfl true
  have hx := (readData_decode_paths {} [] "x").1 rfl true
  exact ⟨hk.1, hk.2, hn, hx⟩

/-- C6: after `clear()` (`clearAll`), `read("creds")` is unchanged while a
read of any other id returns null. -/
theorem clear_preserves_creds_only (config : MySQLConfig) (mode : Bool) (db : DB) :
    (readData noFail config mode (clearAll noFail config db) "creds").1
      = (readData noFail config mode db "creds").1 ∧
    (∀ id, ¬ id = "creds" →
      (readData noFail config mode (clearAll noFail config db) id).1 = .ok .null) := by
  rw [clearAll_noFail]
  constructor
  · rw [readData_noFail, readData_noFail, lookupDB_deleteExceptCreds_creds]
  · intro id h
    rw [readData_noFail, lookupDB_deleteExceptCreds_other db id h]
    rfl

/-- C6 witness: clearing a table holding `"creds"` and `"session-1"` leaves
the creds read unchanged and nulls the other. -/
theorem clear_preserves_creds_only_witness :
    (readData noFail {} false
        (clearAll noFail {}
          [("creds", some (JVal.obj [])), ("session-1", some (JVal.obj []))])
        "creds").1
      = (readData noFail {} false
          [("creds", some (JVal.obj [])), ("session-1", some (JVal.obj []))]
          "creds").1 ∧
    (readData noFail {} false
        (clearAll noFail {}
          [("creds", some (JVal.obj [])), ("session-1", some (JVal.obj []))])
        "session-1").1 = .ok .null := by
  have h := clear_preserves_creds_only {} false
      [("creds", some (JVal.obj [])), ("session-1", some (JVal.obj []))]
  exact ⟨h.1, h.2 "session-1" (by decide)⟩

/-- C7: opening the store when no `"creds"` row exists yields the non-null
freshly-generated default bundle as the in-memory creds, leaves the table
unwritten (the open returns the table unchanged, still with no creds row),
and the default bundle reaches the table only through `saveCreds`. -/
theorem open_generates_default_creds (config : MySQLConfig) (mode : Bool) (db : DB)
    (h : lookupDB db "creds" = none) :
    openCreds noFail config mode db = (.ok initAuthCreds, db) ∧
    initAuthCreds.jsTruthy = true ∧
    lookupDB (openCreds noFail config mode db).2 "creds" = none ∧
    lookupDB (saveCredsOp noFail config initAuthCreds db) "creds"
      = some (some (serializeV initAuthCreds)) := by
  have hopen : openCreds noFail config mode db = (.ok initAuthCreds, db) := by
    unfold openCreds
    rw [readData_noFail, h]
    rfl
  refine ⟨hopen, rfl, ?_, ?_⟩
  · rw [hopen]; exact h
  · unfold saveCredsOp
    rw [writeData_noFail]
    exact lookupDB_upsertDB_self db "creds" _

/-- C7 witness: opening on an empty table yields the default bundle with
the table still empty. -/
theorem open_generates_default_creds_witness :
    openCreds noFail {} false [] = (.ok initAuthCreds, []) ∧
    initAuthCreds.jsTruthy = true :=
  ⟨(open_generates_default_creds {} false [] rfl).1,
   (open_generates_default_creds {} false [] rfl).2.1⟩

/-- C8: the connection manager creates a new handle exactly when no handle
exists, the existing handle reports itself closing, or recreation is
forced; a live unforced handle is reused as-is; and the `CREATE TABLE IF
NOT EXISTS` statement is issued exactly on the brand-new creation (no
handle yet), never on a reconnect. -/
theorem connection_lifecycle (st : Option Handle) (config : MySQLConfig) (force : Bool) :
    ((connection st config force).2.1 = true ↔
      (st = none ∨ (∃ h, st = some h ∧ h.closing = true) ∨ force = true)) ∧
    ((connection st config force).2.2 = true ↔ st = none) ∧
    (∀ h, st = some h → h.closing = false → force = false →
      connection st config force = (h, false, false)) ∧
    ((st = none ∨ (∃ h, st = some h ∧ h.closing = true) ∨ force = true) →
      (connection st config force).1 = { target := targetOf config, closing := false }) := by
  cases st with
  | none => simp [connection]
  | some h =>
    obtain ⟨tgt, cl⟩ := h
    cases cl <;> cases force <;> simp [connection]

/-- C8 witness: a live handle with no force is reused and no create-table
is issued; with no handle, a new one is created and the statement issued. -/
theorem connection_lifecycle_witness :
    connection (some { target := targetOf {}, closing := false }) {} false
      = ({ target := targetOf {}, closing := false }, false, false) ∧
    (connection none {} false).2.2 = true := by
  refine ⟨?_, rfl⟩
  exact (connection_lifecycle (some { target := targetOf {}, closing := false }) {} false).2.2.1
    { target := targetOf {}, closing := false } rfl rfl rfl

/-- C9 counterexample: the claim "each distinct configured target gets its
own lazily-created handle" is false. After opening against host
`db1.example`, a second open against the distinct target `db2.example`
returns the very same handle, which is pointed at the first target, so the
second target never gets its own handle. -/
theorem single_conn_counterexample :
    (connection (some (connection none { host := some "db1.example" } false).1)
        { host := some "db2.example" } false).1
      = (connection none { host := some "db1.example" } false).1 ∧
    (connection none { host := some "db1.example" } false).1.target
      ≠ targetOf { host := some "db2.example" } := by
  constructor
  · rfl
  · intro hcontra
    have : "db1.example" = "db2.example" := congrArg ConnTarget.host hcontra
    simp at this

/-- C9 amended: there is a single process-wide shared connection handle, not
one per configured target, and no pool: the first use lazily creates it,
and every later call — whatever its configured target — reuses that same
handle as long as it does not report itself closing and recreation is not
forced. -/
theorem single_shared_handle (config config2 : MySQLConfig) (h : Handle)
    (hlive : h.closing = false) :
    (connection none config false).1 = { target := targetOf config, closing := false } ∧
    (connection none config false).2.1 = true ∧
    connection (some h) config2 false = (h, false, false) := by
  refine ⟨rfl, rfl, ?_⟩
  simp [connection, hlive]

/-- C9 amended witness: a live handle created for the default config is
reused by a later call configured for a different host. -/
theorem single_shared_handle_witness :
    connection (some (connection none {} false).1) { host := some "elsewhere" } false
      = ((connection none {} false).1, false, false) :=
  (single_shared_handle {} { host := some "elsewhere" } (connection none {} false).1 rfl).2.2

/-- C10: when every underlying query attempt fails, every facade operation
still completes without an error: the raw `query` escape hatch returns an
empty result set, `readData` and `keys.get` degrade to null results, and
`keys.set`, `saveCreds`, `clear`, `removeCreds` and `dropTable` return
normally with the failure swallowed and the table untouched. -/
theorem facade_swallows_total_failure (config : MySQLConfig) (mode : Bool) (db : DB)
    (stmt : Stmt) (id ty : String) (ids : List String)
    (data : List (String × List (String × JVal))) (creds : JVal)
    (fromObj : JVal → JVal) :
    (query allFail config stmt db).rows = [] ∧
    (query allFail config stmt db).db = db ∧
    readData allFail config mode db id = (.ok .null, db) ∧
    keysGet fromObj allFail config mode ty ids db
      = (.ok (ids.map (fun i => (i, JVal.null))), db) ∧
    keysSet allFail config data db = db ∧
    saveCredsOp allFail config creds db = db ∧
    clearAll allFail config db = db ∧
    removeAll allFail config db = db ∧
    dropTableOp allFail config db = db := by
  refine ⟨by rw [query_allFail], by rw [query_allFail], readData_allFail _ _ _ _,
    keysGet_allFail _ _ _ _ _ _, keysSet_allFail _ _ _, ?_, ?_, ?_, ?_⟩
  · unfold saveCredsOp writeData; rw [query_allFail]
  · unfold clearAll; rw [query_allFail]
  · unfold removeAll; rw [query_allFail]
  · unfold dropTableOp; rw [query_allFail]
